import Mathlib

/-!
Shallow embedding of the redirect-resolution endpoint of the
cogiflow-affiliate-api repository.

The repository contains two variants of the same route handler
(src/app/api/redirect/[slug]/route.ts and src/unnamed/part_000); they are
textually identical except for the success emission: route.ts returns a
200 HTML confirmation page that opens the destination, part_000 returns a
301 redirect to the destination.  Both are embedded through one handler
parameterised by a response mode.

JavaScript string primitives (String.prototype.trim, toLowerCase, the
character class of the sanitisation regex, and the WHATWG URL parser used
by isValidUrl) are modelled over Char code points.  The model covers the
ASCII range exactly as the source behaves on it; exotic Unicode
case-mapping and the full WHATWG parser tolerance are not modelled.

The persistent store (supabase) is an external collaborator; its observable
behaviour at the two call sites is modelled by the outcome types
FetchOutcome and UpdateOutcome, and, for end-to-end runs, by a list of
records with the exact-match single-row lookup semantics of
.eq(slug).eq(active, true).single() and the update-by-id write.
-/

namespace Cogiflow

/-- Code points the sanitisation regex [a-z0-9-_] accepts: lowercase ASCII
letters, ASCII digits, hyphen (45) and underscore (95). -/
def isAllowedChar (c : Char) : Bool :=
  decide ((97 ≤ c.toNat ∧ c.toNat ≤ 122) ∨ (48 ≤ c.toNat ∧ c.toNat ≤ 57) ∨
    c.toNat = 45 ∨ c.toNat = 95)

/-- Whitespace stripped by JavaScript String.prototype.trim: space, tab,
LF, VT, FF, CR, NBSP and the BOM (the further Unicode space code points of
the JS WhiteSpace class are not modelled). -/
def isWsChar (c : Char) : Bool :=
  decide (c.toNat = 32 ∨ c.toNat = 9 ∨ c.toNat = 10 ∨ c.toNat = 11 ∨
    c.toNat = 12 ∨ c.toNat = 13 ∨ c.toNat = 160 ∨ c.toNat = 65279)

/-- ASCII lowering performed by String.prototype.toLowerCase on the code
points the handler can meet after sanitisation-relevant processing. -/
def toLowerChar (c : Char) : Char :=
  if 65 ≤ c.toNat ∧ c.toNat ≤ 90 then Char.ofNat (c.toNat + 32) else c

/-- Strip leading and trailing whitespace from a character list, as
String.prototype.trim does. -/
def trimChars (l : List Char) : List Char :=
  ((l.dropWhile isWsChar).reverse.dropWhile isWsChar).reverse

/-- Model of slug.trim(). -/
def jsTrim (s : String) : String := ⟨trimChars s.data⟩

/-- Model of slug.trim().toLowerCase(): the normalised input the handler
compares the sanitised slug against. -/
def normSlug (s : String) : String := ⟨(trimChars s.data).map toLowerChar⟩

/-- Model of .replace with the regex removing every character outside
[a-z0-9-_]. -/
def stripDisallowed (s : String) : String := ⟨s.data.filter isAllowedChar⟩

/-- The sanitised slug: slug.trim().toLowerCase().replace(regex, empty). -/
def sanitizeSlug (s : String) : String := stripDisallowed (normSlug s)

/-- The fixed default destination used on every failure path. -/
def defaultUrl : String := "https://cogiflow.ai"

/-- A URL tail (after the scheme-and-slashes) has a non-empty host. -/
def hostOk : List Char → Bool
  | [] => false
  | c :: _ => !(c == '/' || c == '?' || c == '#')

/-- Model of isValidUrl: new URL(urlString) must succeed and the protocol
must be http or https.  Approximates the WHATWG parser by requiring an
http:// or https:// scheme (case-insensitively, after trimming) followed
by a non-empty host. -/
def isValidUrl (u : String) : Bool :=
  match (trimChars u.data).map toLowerChar with
  | 'h' :: 't' :: 't' :: 'p' :: ':' :: '/' :: '/' :: rest => hostOk rest
  | 'h' :: 't' :: 't' :: 'p' :: 's' :: ':' :: '/' :: '/' :: rest => hostOk rest
  | _ => false

/-- The affiliate_links row shape of the source interface AffiliateLink.
clicks is Option-valued to model the defensive (clicks || 0) read, and
fallback_url is optional as in the interface. -/
structure AffiliateLink where
  id : String
  slug : String
  redirect_url : String
  fallback_url : Option String
  clicks : Option Nat
  created_at : String
  active : Bool
deriving DecidableEq, Repr

/-- Model of (affiliateLink.clicks || 0). -/
def clicksOrZero (c : Option Nat) : Nat := c.getD 0

/-- Model of (affiliateLink.fallback_url || defaultUrl): a missing or
empty fallback string falls through to the default URL. -/
def jsOrDefault (o : Option String) : String :=
  match o with
  | none => defaultUrl
  | some s => if s = "" then defaultUrl else s

/-- Destination selection of the handler: take redirect_url; if it is
empty or fails isValidUrl, take fallback_url || defaultUrl; finally
re-validate and force defaultUrl if still invalid. -/
def chooseDestination (link : AffiliateLink) : String :=
  let r0 := link.redirect_url
  let r1 := if r0 = "" ∨ isValidUrl r0 = false then jsOrDefault link.fallback_url else r0
  if isValidUrl r1 = false then defaultUrl else r1

/-- Observable outcome of the supabase single-row fetch: a row, a null row
without error (the defensive !affiliateLink branch), the PGRST116 error
the code treats as no-rows, any other store error, or a raised exception
reaching the surrounding try/catch. -/
inductive FetchOutcome where
  | ok (link : AffiliateLink)
  | okNone
  | errPGRST116
  | errOther
  | throws
deriving DecidableEq, Repr

/-- Observable outcome of the counter update: success, a returned update
error (the logged, non-blocking branch), or a raised exception reaching
the surrounding try/catch. -/
inductive UpdateOutcome where
  | ok
  | err
  | throws
deriving DecidableEq, Repr

/-- The update request the handler issues to the store: the matched row id
and the clicks value written. -/
structure ClickUpdate where
  id : String
  newClicks : Nat
deriving DecidableEq, Repr

/-- Store interactions performed by one handler invocation: the slug
queried, if a lookup was issued, and the counter update issued, if any. -/
structure Effects where
  lookedUp : Option String
  updateIssued : Option ClickUpdate
deriving DecidableEq, Repr

/-- No store interaction at all. -/
def noEffects : Effects := { lookedUp := none, updateIssued := none }

/-- Which success emission the handler uses: route.ts renders the HTML
confirmation page, part_000 emits a plain 301 redirect. -/
inductive ResponseMode where
  | htmlPage
  | plainRedirect
deriving DecidableEq, Repr

/-- Response kind: an HTTP redirect or the HTML confirmation page. -/
inductive RespKind where
  | redirect
  | page
deriving DecidableEq, Repr

/-- The caller-visible response of the GET handler: kind, status, the
destination URL (Location header of a redirect, or the URL the HTML page
opens), the Cache-Control header and the two diagnostic headers
X-Cogiflow-Affiliate and X-Cogiflow-Clicks when present. -/
structure GetResponse where
  kind : RespKind
  status : Nat
  destination : String
  cacheControl : String
  affiliateHeader : Option String
  clicksHeader : Option Nat
deriving DecidableEq, Repr

/-- Cache-Control value of the structurally cacheable failure paths. -/
def cache300 : String := "public, max-age=300"

/-- Cache-Control value of the transient-error failure paths. -/
def cache60 : String := "public, max-age=60"

/-- Cache-Control value of the tracked success response. -/
def noStoreCache : String := "no-cache, no-store, must-revalidate"

/-- The fixed default redirect: NextResponse.redirect(defaultUrl, 301)
with the given Cache-Control value and no diagnostic headers. -/
def defaultRedirect (cache : String) : GetResponse :=
  { kind := RespKind.redirect, status := 301, destination := defaultUrl,
    cacheControl := cache, affiliateHeader := none, clicksHeader := none }

/-- The tracked success response for a matched link and chosen
destination: a 200 HTML page or a 301 redirect depending on the variant,
always with caching disabled and the two diagnostic headers, the clicks
header carrying the observed count plus one. -/
def successResponse (mode : ResponseMode) (link : AffiliateLink) (dest : String) :
    GetResponse :=
  match mode with
  | ResponseMode.htmlPage =>
      { kind := RespKind.page, status := 200, destination := dest,
        cacheControl := noStoreCache, affiliateHeader := some link.id,
        clicksHeader := some (clicksOrZero link.clicks + 1) }
  | ResponseMode.plainRedirect =>
      { kind := RespKind.redirect, status := 301, destination := dest,
        cacheControl := noStoreCache, affiliateHeader := some link.id,
        clicksHeader := some (clicksOrZero link.clicks + 1) }

/-- The GET handler, parameterised by the response-mode variant and the
observable store behaviour at its two call sites.  It mirrors the source
control flow: missing/empty slug check, sanitisation mismatch check,
fetch-error dispatch on PGRST116, best-effort counter update, destination
selection, and the top-level try/catch that turns any raised exception
into the default redirect with the short error cache lifetime. -/
def GET (mode : ResponseMode) (slugParam : Option String)
    (fetch : FetchOutcome) (upd : UpdateOutcome) : GetResponse × Effects :=
  match slugParam with
  | none => (defaultRedirect cache300, noEffects)
  | some slug =>
    if jsTrim slug = "" then
      (defaultRedirect cache300, noEffects)
    else
      if sanitizeSlug slug ≠ normSlug slug then
        (defaultRedirect cache300, noEffects)
      else
        match fetch with
        | FetchOutcome.throws =>
            (defaultRedirect cache60,
             { lookedUp := some (sanitizeSlug slug), updateIssued := none })
        | FetchOutcome.errPGRST116 =>
            (defaultRedirect cache300,
             { lookedUp := some (sanitizeSlug slug), updateIssued := none })
        | FetchOutcome.errOther =>
            (defaultRedirect cache60,
             { lookedUp := some (sanitizeSlug slug), updateIssued := none })
        | FetchOutcome.okNone =>
            (defaultRedirect cache300,
             { lookedUp := some (sanitizeSlug slug), updateIssued := none })
        | FetchOutcome.ok link =>
            let attempted : ClickUpdate :=
              { id := link.id, newClicks := clicksOrZero link.clicks + 1 }
            let eff : Effects :=
              { lookedUp := some (sanitizeSlug slug), updateIssued := some attempted }
            match upd with
            | UpdateOutcome.throws => (defaultRedirect cache60, eff)
            | UpdateOutcome.ok => (successResponse mode link (chooseDestination link), eff)
            | UpdateOutcome.err => (successResponse mode link (chooseDestination link), eff)

/-- Store lookup semantics of
.from(affiliate_links).select().eq(slug, s).eq(active, true).single():
exactly one matching active row is returned; zero rows and multiple rows
both surface as the PGRST116 error the handler checks for. -/
def lookupSingle (store : List AffiliateLink) (s : String) : FetchOutcome :=
  match store.filter (fun r => r.slug = s ∧ r.active = true) with
  | [r] => FetchOutcome.ok r
  | _ => FetchOutcome.errPGRST116

/-- Store update semantics of .update(clicks).eq(id, ...): every row whose
id matches receives the written clicks value. -/
def applyClickUpdate (store : List AffiliateLink) (u : ClickUpdate) : List AffiliateLink :=
  store.map (fun r => if r.id = u.id then { r with clicks := some u.newClicks } else r)

/-- End-to-end run of the GET handler against a concrete store: the fetch
outcome is the single-row lookup on the sanitised slug, and the issued
counter update is applied to the store exactly when the update outcome is
success. -/
def runGET (mode : ResponseMode) (slugParam : Option String)
    (store : List AffiliateLink) (upd : UpdateOutcome) :
    GetResponse × Effects × List AffiliateLink :=
  let fetch :=
    match slugParam with
    | none => FetchOutcome.errPGRST116
    | some s => lookupSingle store (sanitizeSlug s)
  let r := GET mode slugParam fetch upd
  let newStore :=
    match r.2.updateIssued, upd with
    | some u, UpdateOutcome.ok => applyClickUpdate store u
    | _, _ => store
  (r.1, r.2, newStore)

/-- The 405 rejection body of the non-GET handlers:
NextResponse.json with an error field, at the given status. -/
structure JsonErrorResponse where
  status : Nat
  error : String
deriving DecidableEq, Repr

/-- The POST handler: a constant 405 method-not-allowed rejection with no
store interaction. -/
def POST : JsonErrorResponse × Effects :=
  ({ status := 405, error := "Method not allowed" }, noEffects)

/-- The PUT handler: a constant 405 method-not-allowed rejection with no
store interaction. -/
def PUT : JsonErrorResponse × Effects :=
  ({ status := 405, error := "Method not allowed" }, noEffects)

/-- The DELETE handler: a constant 405 method-not-allowed rejection with
no store interaction. -/
def DELETE : JsonErrorResponse × Effects :=
  ({ status := 405, error := "Method not allowed" }, noEffects)

/-- Extract the max-age value of a Cache-Control header string, if one is
present: an observation used to compare cache lifetimes. -/
def afterMaxAge : List Char → Option (List Char)
  | 'm' :: 'a' :: 'x' :: '-' :: 'a' :: 'g' :: 'e' :: '=' :: rest => some rest
  | _ :: t => afterMaxAge t
  | [] => none

/-- A decimal digit code point. -/
def isDigitChar (c : Char) : Bool := decide (48 ≤ c.toNat ∧ c.toNat ≤ 57)

/-- Numeric value of a digit string. -/
def digitsVal (l : List Char) : Nat :=
  l.foldl (fun n c => 10 * n + (c.toNat - 48)) 0

/-- The max-age directive value of a Cache-Control header, when present. -/
def maxAgeOf (s : String) : Option Nat :=
  match afterMaxAge s.data with
  | none => none
  | some r =>
      let ds := r.takeWhile isDigitChar
      if ds = [] then none else some (digitsVal ds)

/-- The destination cascade as the specification words it, for comparison
with chooseDestination: a non-empty valid redirect_url wins; otherwise a
present, non-empty, valid fallback_url; otherwise the fixed default URL. -/
def specCascade (link : AffiliateLink) : String :=
  if link.redirect_url ≠ "" ∧ isValidUrl link.redirect_url = true then link.redirect_url
  else
    match link.fallback_url with
    | some f => if f ≠ "" ∧ isValidUrl f = true then f else defaultUrl
    | none => defaultUrl

/-- The concrete record of the specification scenario: slug tool, a valid
partner redirect_url, a valid fallback, five observed clicks, active. -/
def toolRecord : AffiliateLink :=
  { id := "tool-1", slug := "tool", redirect_url := "https://partner.example/x",
    fallback_url := some "https://cogiflow.ai", clicks := some 5,
    created_at := "2024-01-01", active := true }

/-- An allowed slug character is not whitespace. -/
theorem allowed_not_ws {c : Char} (h : isAllowedChar c = true) : isWsChar c = false := by
  simp only [isAllowedChar, decide_eq_true_eq] at h
  simp only [isWsChar, decide_eq_false_iff_not]
  omega

/-- An allowed slug character is fixed by ASCII lowering. -/
theorem allowed_toLower {c : Char} (h : isAllowedChar c = true) : toLowerChar c = c := by
  simp only [isAllowedChar, decide_eq_true_eq] at h
  unfold toLowerChar
  rw [if_neg]
  omega

/-- Dropping leading whitespace from an all-non-whitespace list changes
nothing. -/
theorem dropWhile_ws_eq_self {l : List Char} (h : ∀ c ∈ l, isWsChar c = false) :
    l.dropWhile isWsChar = l := by
  cases l with
  | nil => rfl
  | cons a t =>
      rw [List.dropWhile_cons, if_neg]
      simp [h a (List.mem_cons_self a t)]

/-- Trimming an all-non-whitespace list changes nothing. -/
theorem trimChars_eq_self {l : List Char} (h : ∀ c ∈ l, isWsChar c = false) :
    trimChars l = l := by
  unfold trimChars
  rw [dropWhile_ws_eq_self h,
    dropWhile_ws_eq_self (fun c hc => h c (List.mem_reverse.mp hc)),
    List.reverse_reverse]

/-- Normalisation fixes a string whose characters are all allowed. -/
theorem normSlug_eq_self {q : String} (h : ∀ c ∈ q.data, isAllowedChar c = true) :
    normSlug q = q := by
  apply String.ext
  show (trimChars q.data).map toLowerChar = q.data
  rw [trimChars_eq_self (fun c hc => allowed_not_ws (h c hc))]
  calc q.data.map toLowerChar = q.data.map id :=
        List.map_congr_left (fun c hc => allowed_toLower (h c hc))
    _ = q.data := List.map_id q.data

/-- Stripping disallowed characters fixes a string whose characters are
all allowed. -/
theorem stripDisallowed_eq_self {q : String} (h : ∀ c ∈ q.data, isAllowedChar c = true) :
    stripDisallowed q = q := by
  apply String.ext
  show q.data.filter isAllowedChar = q.data
  exact List.filter_eq_self.mpr h

/-- A string surviving the sanitisation mismatch check has only allowed
characters. -/
theorem allowed_of_sanitize_eq {s : String} (h : sanitizeSlug s = normSlug s) :
    ∀ c ∈ (normSlug s).data, isAllowedChar c = true := by
  have hdata : (normSlug s).data.filter isAllowedChar = (normSlug s).data :=
    congrArg String.data h
  exact List.filter_eq_self.mp hdata

/-- C1: any raw slug whose trimmed, lowercased form contains a character
outside the allowed class [a-z0-9-_] is rejected: the handler answers the
default 301 redirect (with the structural cache lifetime) and performs no
store interaction at all, for every store behaviour and response
variant. -/
theorem invalidCharsRejected (mode : ResponseMode) (fetch : FetchOutcome)
    (upd : UpdateOutcome) (slug : String)
    (h : ∃ c ∈ (normSlug slug).data, isAllowedChar c = false) :
    GET mode (some slug) fetch upd = (defaultRedirect cache300, noEffects) := by
  obtain ⟨c, hc, hbad⟩ := h
  have hne : jsTrim slug ≠ "" := by
    intro he
    have hnil : trimChars slug.data = [] := by
      have := congrArg String.data he
      simpa [jsTrim] using this
    simp [normSlug, hnil] at hc
  have hmm : sanitizeSlug slug ≠ normSlug slug := by
    intro he
    have := allowed_of_sanitize_eq he c hc
    rw [hbad] at this
    exact Bool.false_ne_true this
  simp [GET, hne, hmm]

/-- Witness for C1 at the spec scenario input "../etc": the trimmed,
lowercased form contains disallowed characters and the handler answers
the default redirect without store interaction. -/
theorem invalidCharsRejectedWitness :
    (∃ c ∈ (normSlug "../etc").data, isAllowedChar c = false) ∧
    GET ResponseMode.htmlPage (some "../etc") FetchOutcome.errOther UpdateOutcome.err =
      (defaultRedirect cache300, noEffects) :=
  ⟨by decide,
   invalidCharsRejected ResponseMode.htmlPage FetchOutcome.errOther UpdateOutcome.err
     "../etc" (by decide)⟩

/-- The trailing part of the destination cascade: when the primary URL is
rejected, the selected-and-revalidated fallback equals the spec cascade on
fallback_url and is always a valid URL. -/
theorem fallback_cascade (fb : Option String) :
    ((if isValidUrl (jsOrDefault fb) = false then defaultUrl else jsOrDefault fb) =
      (match fb with
       | some f => if f ≠ "" ∧ isValidUrl f = true then f else defaultUrl
       | none => defaultUrl)) ∧
    isValidUrl (if isValidUrl (jsOrDefault fb) = false then defaultUrl else jsOrDefault fb) =
      true := by
  have hdef : isValidUrl defaultUrl = true := by decide
  cases fb with
  | none => simp [jsOrDefault, hdef]
  | some f =>
      by_cases hf0 : f = ""
      · simp [jsOrDefault, hf0, hdef]
      · by_cases hfv : isValidUrl f = true
        · simp [jsOrDefault, hf0, hfv]
        · simp [jsOrDefault, hf0, hfv, hdef]

/-- C2: destination selection is exactly the three-way cascade the spec
states, and the finally selected URL always passes URL validation, so the
emitted destination is never invalid. -/
theorem destinationCascade (link : AffiliateLink) :
    chooseDestination link = specCascade link ∧
    isValidUrl (chooseDestination link) = true := by
  by_cases h1 : link.redirect_url = ""
  · have h := fallback_cascade link.fallback_url
    constructor
    · rw [chooseDestination, specCascade]
      simp only [h1]
      simpa [h1] using h.1
    · simpa [chooseDestination, h1] using h.2
  · by_cases h2 : isValidUrl link.redirect_url = true
    · constructor
      · simp [chooseDestination, specCascade, h1, h2]
      · simp [chooseDestination, h1, h2]
    · have h := fallback_cascade link.fallback_url
      constructor
      · rw [chooseDestination, specCascade]
        simp only [h1, h2]
        simpa [h1, h2] using h.1
      · simpa [chooseDestination, h1, h2] using h.2

/-- C3: when the lookup matches exactly one active record and the counter
update succeeds, the handler emits the tracked success response for the
chosen destination, issues a counter write of exactly the observed clicks
value plus one, and the resulting store carries that value on every record
with the matched id. -/
theorem resolutionWritesObservedPlusOne (mode : ResponseMode) (slug : String)
    (store : List AffiliateLink) (link : AffiliateLink)
    (htrim : jsTrim slug ≠ "")
    (hval : sanitizeSlug slug = normSlug slug)
    (hfetch : lookupSingle store (sanitizeSlug slug) = FetchOutcome.ok link) :
    (runGET mode (some slug) store UpdateOutcome.ok).1 =
      successResponse mode link (chooseDestination link) ∧
    (runGET mode (some slug) store UpdateOutcome.ok).2.1.updateIssued =
      some { id := link.id, newClicks := clicksOrZero link.clicks + 1 } ∧
    (runGET mode (some slug) store UpdateOutcome.ok).2.2 =
      applyClickUpdate store { id := link.id, newClicks := clicksOrZero link.clicks + 1 } ∧
    ∀ r ∈ (runGET mode (some slug) store UpdateOutcome.ok).2.2, r.id = link.id →
      r.clicks = some (clicksOrZero link.clicks + 1) := by
  have hfetch' : lookupSingle store (normSlug slug) = FetchOutcome.ok link := hval ▸ hfetch
  have hrun : runGET mode (some slug) store UpdateOutcome.ok =
      (successResponse mode link (chooseDestination link),
       { lookedUp := some (sanitizeSlug slug),
         updateIssued := some { id := link.id, newClicks := clicksOrZero link.clicks + 1 } },
       applyClickUpdate store { id := link.id, newClicks := clicksOrZero link.clicks + 1 }) := by
    simp [runGET, hfetch, GET, htrim, hval, hfetch']
  refine ⟨by rw [hrun], by rw [hrun], by rw [hrun], ?_⟩
  rw [hrun]
  intro r hr hid
  simp only [applyClickUpdate, List.mem_map] at hr
  obtain ⟨r0, _, rfl⟩ := hr
  by_cases h0 : r0.id = link.id
  · simp [h0]
  · rw [if_neg h0] at hid ⊢
    exact absurd hid h0

/-- Witness for C3 at the spec scenario: raw input with trailing space and
mixed case sanitises to tool, matches the stored record, the plain
redirect variant answers a 301 to the partner URL, and the stored clicks
value becomes six. -/
theorem resolutionWitness :
    sanitizeSlug "Tool " = "tool" ∧
    lookupSingle [toolRecord] (sanitizeSlug "Tool ") = FetchOutcome.ok toolRecord ∧
    (runGET ResponseMode.plainRedirect (some "Tool ") [toolRecord] UpdateOutcome.ok).1.kind =
      RespKind.redirect ∧
    (runGET ResponseMode.plainRedirect (some "Tool ") [toolRecord] UpdateOutcome.ok).1.status =
      301 ∧
    (runGET ResponseMode.plainRedirect (some "Tool ") [toolRecord]
        UpdateOutcome.ok).1.destination = "https://partner.example/x" ∧
    (runGET ResponseMode.plainRedirect (some "Tool ") [toolRecord] UpdateOutcome.ok).2.2 =
      [{ toolRecord with clicks := some 6 }] := by
  have h := resolutionWritesObservedPlusOne ResponseMode.plainRedirect "Tool " [toolRecord]
    toolRecord (by decide) (by decide) (by decide)
  refine ⟨by decide, by decide, ?_, ?_, ?_, ?_⟩
  · rw [h.1]
    decide
  · rw [h.1]
    decide
  · rw [h.1]
    decide
  · rw [h.2.2.1]
    decide

/-- C4: the handler is total over every input and every modelled store
behaviour, the exception outcomes included: every run emits either the
tracked success response of a matched record or the fixed default 301
redirect (with the structural or the transient cache lifetime), never an
error response. -/
theorem noExceptionEscapes (mode : ResponseMode) (slugParam : Option String)
    (fetch : FetchOutcome) (upd : UpdateOutcome) :
    (∃ link, fetch = FetchOutcome.ok link ∧
      (GET mode slugParam fetch upd).1 = successResponse mode link (chooseDestination link)) ∨
    (GET mode slugParam fetch upd).1 = defaultRedirect cache300 ∨
    (GET mode slugParam fetch upd).1 = defaultRedirect cache60 := by
  cases slugParam with
  | none => right; left; rfl
  | some slug =>
      by_cases h1 : jsTrim slug = ""
      · right; left; simp [GET, h1]
      by_cases h2 : sanitizeSlug slug ≠ normSlug slug
      · right; left; simp [GET, h1, h2]
      cases fetch with
      | ok link =>
          cases upd with
          | throws => right; right; simp [GET, h1, h2]
          | ok => exact Or.inl ⟨link, rfl, by simp [GET, h1, h2]⟩
          | err => exact Or.inl ⟨link, rfl, by simp [GET, h1, h2]⟩
      | okNone => right; left; simp [GET, h1, h2]
      | errPGRST116 => right; left; simp [GET, h1, h2]
      | errOther => right; right; simp [GET, h1, h2]
      | throws => right; right; simp [GET, h1, h2]

/-- C5: the outcome of the counter update has no effect on the response:
a run whose update returns an error is observably identical, effects
included, to the run whose update succeeds, so the same destination is
chosen and the redirect is still emitted. -/
theorem updateFailureSameResponse (mode : ResponseMode) (slugParam : Option String)
    (fetch : FetchOutcome) :
    GET mode slugParam fetch UpdateOutcome.err = GET mode slugParam fetch UpdateOutcome.ok := by
  cases slugParam with
  | none => rfl
  | some slug =>
      by_cases h1 : jsTrim slug = ""
      · simp [GET, h1]
      by_cases h2 : sanitizeSlug slug ≠ normSlug slug
      · simp [GET, h1, h2]
      cases fetch <;> simp [GET, h1, h2]

/-- C6: a missing slug or a slug empty after trimming yields the default
301 redirect with a short positive cache lifetime and no store
interaction, for every store behaviour and response variant. -/
theorem emptySlugDefault (mode : ResponseMode) (fetch : FetchOutcome)
    (upd : UpdateOutcome) (slugParam : Option String)
    (h : slugParam = none ∨ ∃ s, slugParam = some s ∧ jsTrim s = "") :
    GET mode slugParam fetch upd = (defaultRedirect cache300, noEffects) ∧
    ∃ n, maxAgeOf (GET mode slugParam fetch upd).1.cacheControl = some n ∧ 0 < n := by
  have hmain : GET mode slugParam fetch upd = (defaultRedirect cache300, noEffects) := by
    rcases h with rfl | ⟨s, rfl, hs⟩
    · rfl
    · simp [GET, hs]
  refine ⟨hmain, 300, ?_, by norm_num⟩
  rw [hmain]
  decide

/-- Witness for C6 at a whitespace-only input: the handler answers the
default redirect with the positive structural cache lifetime and no store
interaction. -/
theorem emptySlugDefaultWitness :
    ((some "   " : Option String) = none ∨
      ∃ s, (some "   " : Option String) = some s ∧ jsTrim s = "") ∧
    GET ResponseMode.htmlPage (some "   ") FetchOutcome.errOther UpdateOutcome.err =
      (defaultRedirect cache300, noEffects) := by
  have h := emptySlugDefault ResponseMode.htmlPage FetchOutcome.errOther UpdateOutcome.err
    (some "   ") (Or.inr ⟨"   ", rfl, by decide⟩)
  exact ⟨Or.inr ⟨"   ", rfl, by decide⟩, h.1⟩

/-- C7: for a validated slug, a store-level fetch error other than the
no-rows code is cached for max-age sixty, strictly shorter than the
max-age three hundred of the no-matching-row default redirect, while the
tracked success response disables caching entirely (no max-age directive
at all). -/
theorem cachePolicyDistinguishes (mode : ResponseMode) (slug : String)
    (upd : UpdateOutcome) (link : AffiliateLink)
    (htrim : jsTrim slug ≠ "") (hval : sanitizeSlug slug = normSlug slug) :
    (GET mode (some slug) FetchOutcome.errOther upd).1.cacheControl = cache60 ∧
    (GET mode (some slug) FetchOutcome.errPGRST116 upd).1.cacheControl = cache300 ∧
    maxAgeOf cache60 = some 60 ∧ maxAgeOf cache300 = some 300 ∧ (60 : Nat) < 300 ∧
    (GET mode (some slug) (FetchOutcome.ok link) UpdateOutcome.ok).1.cacheControl =
      noStoreCache ∧
    maxAgeOf noStoreCache = none := by
  refine ⟨by simp [GET, htrim, hval, defaultRedirect], by simp [GET, htrim, hval, defaultRedirect],
    by decide, by decide, by norm_num, ?_, by decide⟩
  cases mode <;> simp [GET, htrim, hval, successResponse]

/-- Witness for C7 at the slug tool: the error cache lifetime, the
not-found cache lifetime and the disabled success caching are observed at
concrete runs. -/
theorem cachePolicyWitness :
    jsTrim "tool" ≠ "" ∧ sanitizeSlug "tool" = normSlug "tool" ∧
    (GET ResponseMode.htmlPage (some "tool") FetchOutcome.errOther
      UpdateOutcome.err).1.cacheControl = cache60 ∧
    (GET ResponseMode.htmlPage (some "tool") FetchOutcome.errPGRST116
      UpdateOutcome.err).1.cacheControl = cache300 ∧
    (GET ResponseMode.htmlPage (some "tool") (FetchOutcome.ok toolRecord)
      UpdateOutcome.ok).1.cacheControl = noStoreCache := by
  have h := cachePolicyDistinguishes ResponseMode.htmlPage "tool" UpdateOutcome.err toolRecord
    (by decide) (by decide)
  exact ⟨by decide, by decide, h.1, h.2.1, h.2.2.2.2.2.1⟩

/-- C8: the POST, PUT and DELETE handlers answer status 405 with the JSON
error body Method not allowed and perform no store interaction and no
side effects. -/
theorem nonGetMethodsRejected :
    POST.1.status = 405 ∧ POST.1.error = "Method not allowed" ∧ POST.2 = noEffects ∧
    PUT.1.status = 405 ∧ PUT.1.error = "Method not allowed" ∧ PUT.2 = noEffects ∧
    DELETE.1.status = 405 ∧ DELETE.1.error = "Method not allowed" ∧ DELETE.2 = noEffects ∧
    noEffects.lookedUp = none ∧ noEffects.updateIssued = none := by
  decide

/-- C9: on a tracked success the X-Cogiflow-Clicks header carries the
clicks value observed at lookup plus one whether the counter write
succeeds or fails; when it fails, the store is left unchanged, so the
advertised count was never stored. -/
theorem clicksHeaderObservedPlusOne (mode : ResponseMode) (slug : String)
    (store : List AffiliateLink) (link : AffiliateLink)
    (htrim : jsTrim slug ≠ "") (hval : sanitizeSlug slug = normSlug slug)
    (hfetch : lookupSingle store (sanitizeSlug slug) = FetchOutcome.ok link) :
    (runGET mode (some slug) store UpdateOutcome.ok).1.clicksHeader =
      some (clicksOrZero link.clicks + 1) ∧
    (runGET mode (some slug) store UpdateOutcome.err).1.clicksHeader =
      some (clicksOrZero link.clicks + 1) ∧
    (runGET mode (some slug) store UpdateOutcome.err).2.2 = store := by
  have hfetch' : lookupSingle store (normSlug slug) = FetchOutcome.ok link := hval ▸ hfetch
  cases mode <;>
    refine ⟨?_, ?_, ?_⟩ <;>
    simp [runGET, GET, htrim, hval, hfetch', successResponse]

/-- Witness for C9 at the slug tool with a failing counter write: the
header advertises six clicks while the store still records five. -/
theorem clicksHeaderWitness :
    (runGET ResponseMode.htmlPage (some "tool") [toolRecord] UpdateOutcome.err).1.clicksHeader =
      some 6 ∧
    (runGET ResponseMode.htmlPage (some "tool") [toolRecord] UpdateOutcome.err).2.2 =
      [toolRecord] := by
  have h := clicksHeaderObservedPlusOne ResponseMode.htmlPage "tool" [toolRecord] toolRecord
    (by decide) (by decide) (by decide)
  refine ⟨?_, h.2.2⟩
  rw [h.2.1]
  decide

/-- C10: whenever the handler issues a store lookup, the queried slug is
exactly the trimmed, lowercased raw input, every one of its characters is
in the allowed class, and sanitising it again leaves it unchanged:
accepted inputs are fixpoints of sanitisation. -/
theorem lookupSlugFixpoint (mode : ResponseMode) (fetch : FetchOutcome)
    (upd : UpdateOutcome) (slug q : String)
    (h : (GET mode (some slug) fetch upd).2.lookedUp = some q) :
    q = normSlug slug ∧ (∀ c ∈ q.data, isAllowedChar c = true) ∧ sanitizeSlug q = q := by
  by_cases h1 : jsTrim slug = ""
  · simp [GET, h1, noEffects] at h
  by_cases h2 : sanitizeSlug slug ≠ normSlug slug
  · simp [GET, h1, h2, noEffects] at h
  push_neg at h2
  have hq : q = normSlug slug := by
    cases fetch <;> cases upd <;> simp [GET, h1, h2] at h <;> exact h.symm
  have hall : ∀ c ∈ q.data, isAllowedChar c = true := by
    rw [hq]
    exact allowed_of_sanitize_eq h2
  refine ⟨hq, hall, ?_⟩
  rw [sanitizeSlug, normSlug_eq_self hall, stripDisallowed_eq_self hall]

/-- Witness for C10 at the raw input with trailing space and mixed case:
the queried slug is tool, all its characters are allowed and it is a
fixpoint of sanitisation. -/
theorem lookupSlugFixpointWitness :
    (GET ResponseMode.htmlPage (some "Tool ") FetchOutcome.errPGRST116
      UpdateOutcome.err).2.lookedUp = some "tool" ∧
    ("tool" : String) = normSlug "Tool " ∧
    (∀ c ∈ ("tool" : String).data, isAllowedChar c = true) ∧
    sanitizeSlug "tool" = "tool" :=
  ⟨by decide,
   lookupSlugFixpoint ResponseMode.htmlPage FetchOutcome.errPGRST116 UpdateOutcome.err
     "Tool " "tool" (by decide)⟩

end Cogiflow
